import Mathlib

/-!
Verification of the directory-override settings component
(`src/components/settings/DirectorySettings.tsx`) of cc-switch.

The component is a controlled React component: all persistent state lives in
the hook that supplies its props, and the component itself only (a) computes
the displayed effective path from an optional override and the resolved
platform default, (b) derives the `disabled` flag of each per-app control from
the global override gate, and (c) forwards UI events to the callback props.
We embed the render as a pure function from props to an abstract description
of the rendered controls, and the event handling as a pure function from
props and a UI event to the callback the component emits (a disabled control
emits nothing, per DOM semantics).

The state container, the sync-propagation policy and the browse dispatcher
are not part of this source file; where a claim requires them they are
modelled from the spec, and each such definition says so in its doc comment.
-/

namespace CCSwitch

/-- The closed set of managed external applications: the `AppId` type from
`src/lib/api` as used by `DirectorySettings.tsx` (the component instantiates
exactly `"claude"`, `"codex"` and `"gemini"`). -/
inductive AppId
  | claude
  | codex
  | gemini
deriving DecidableEq

/-- The mapping of resolved platform-default directories consumed by the
component via the `resolvedDirs` prop. The fields mirror the accesses in
`DirectorySettings.tsx`: `resolvedDirs.appConfig` (line 60) and
`resolvedDirs.claude` / `.codex` / `.gemini` (lines 133, 145, 157). Each field
is optional here so that the nullish-coalescing fallbacks of the source are
embedded faithfully. -/
structure ResolvedDirectories where
  appConfig : Option String
  claude : Option String
  codex : Option String
  gemini : Option String
deriving DecidableEq

/-- `DirectoryInput`'s `displayValue` (DirectorySettings.tsx lines 193-196):
`value ?? resolvedValue ?? ""`. -/
def displayValue (value : Option String) (resolvedValue : Option String) : String :=
  value.getD (resolvedValue.getD "")

/-- The props of the `DirectorySettings` component that determine what is
rendered (DirectorySettings.tsx lines 10-26); the callback props are not data
and are represented by the emitted `Callback` values below. -/
structure DirectorySettingsProps where
  appConfigDir : Option String
  resolvedDirs : ResolvedDirectories
  enableConfigDirOverrides : Bool
  syncProviderSwitchToBothConfigDirs : Bool
  claudeDir : Option String
  codexDir : Option String
  geminiDir : Option String
deriving DecidableEq

/-- The per-app override prop passed as `value` to each `DirectoryInput`
(DirectorySettings.tsx lines 132, 144, 156). -/
def dirFor (p : DirectorySettingsProps) : AppId → Option String
  | .claude => p.claudeDir
  | .codex => p.codexDir
  | .gemini => p.geminiDir

/-- The resolved default passed as `resolvedValue` to each `DirectoryInput`
(DirectorySettings.tsx lines 133, 145, 157). -/
def resolvedFor (r : ResolvedDirectories) : AppId → Option String
  | .claude => r.claude
  | .codex => r.codex
  | .gemini => r.gemini

/-- The rendered state of one directory row: the text shown in the input and
the `disabled` attribute of the input and of the browse and reset buttons. -/
structure RenderedDirectoryInput where
  value : String
  inputDisabled : Bool
  browseDisabled : Bool
  resetDisabled : Bool
deriving DecidableEq

/-- The render of the `DirectoryInput` subcomponent (DirectorySettings.tsx
lines 181-237): the input shows `displayValue` and the input, browse button
and reset button all carry the single `disabled` prop (lines 211, 218, 228). -/
def renderDirectoryInput (value : Option String) (resolvedValue : Option String)
    (disabled : Bool) : RenderedDirectoryInput :=
  { value := displayValue value resolvedValue
    inputDisabled := disabled
    browseDisabled := disabled
    resetDisabled := disabled }

/-- The rendered state of the whole settings section: the host app's own
config-directory row plus one row per managed app. -/
structure RenderedDirectorySettings where
  appConfigInput : RenderedDirectoryInput
  perApp : AppId → RenderedDirectoryInput

/-- The render of the `DirectorySettings` component (DirectorySettings.tsx
lines 47-166). The appConfig row (lines 58-83) shows
`appConfigDir ?? resolvedDirs.appConfig ?? ""` (line 60) and none of its three
controls has a `disabled` attribute, so all are enabled. Each per-app row is a
`DirectoryInput` with `disabled = !enableConfigDirOverrides`
(lines 135, 147, 159). -/
def renderDirectorySettings (p : DirectorySettingsProps) : RenderedDirectorySettings :=
  { appConfigInput :=
      { value := p.appConfigDir.getD (p.resolvedDirs.appConfig.getD "")
        inputDisabled := false
        browseDisabled := false
        resetDisabled := false }
    perApp := fun app =>
      renderDirectoryInput (dirFor p app) (resolvedFor p.resolvedDirs app)
        (!p.enableConfigDirOverrides) }

/-- The callback props of `DirectorySettings`, as invocations with their
arguments. A change callback carries `Option String` because the props are
typed `(value?: string) => void`. -/
inductive Callback
  | onAppConfigChange (value : Option String)
  | onBrowseAppConfig
  | onResetAppConfig
  | onEnableConfigDirOverridesChange (enabled : Bool)
  | onSyncProviderSwitchToBothConfigDirsChange (enabled : Bool)
  | onDirectoryChange (app : AppId) (value : Option String)
  | onBrowseDirectory (app : AppId)
  | onResetDirectory (app : AppId)
deriving DecidableEq

/-- The user events the component can receive: editing a text input (with the
input's new contents), clicking a browse or reset button, flipping a switch. -/
inductive UIEvent
  | editAppConfig (text : String)
  | clickBrowseAppConfig
  | clickResetAppConfig
  | toggleOverrides (enabled : Bool)
  | toggleSync (enabled : Bool)
  | editDirectory (app : AppId) (text : String)
  | clickBrowseDirectory (app : AppId)
  | clickResetDirectory (app : AppId)
deriving DecidableEq

/-- The callback emitted by the component for a user event, `none` when the
targeted control is disabled (a disabled input or button fires no handler).
The handlers are those attached in the source: the appConfig input forwards
`event.target.value` to `onAppConfigChange` (line 63); each per-app input
forwards `event.target.value` to `onDirectoryChange` for its app (lines 136,
148, 160 via line 212); the browse and reset buttons forward to the
corresponding callbacks (lines 69, 78, 137-138, 149-150, 161-162); the two
switches forward the new boolean (lines 109, 124). -/
def dispatch (p : DirectorySettingsProps) : UIEvent → Option Callback
  | .editAppConfig text =>
      if (renderDirectorySettings p).appConfigInput.inputDisabled then none
      else some (.onAppConfigChange (some text))
  | .clickBrowseAppConfig =>
      if (renderDirectorySettings p).appConfigInput.browseDisabled then none
      else some .onBrowseAppConfig
  | .clickResetAppConfig =>
      if (renderDirectorySettings p).appConfigInput.resetDisabled then none
      else some .onResetAppConfig
  | .toggleOverrides enabled => some (.onEnableConfigDirOverridesChange enabled)
  | .toggleSync enabled => some (.onSyncProviderSwitchToBothConfigDirsChange enabled)
  | .editDirectory app text =>
      if ((renderDirectorySettings p).perApp app).inputDisabled then none
      else some (.onDirectoryChange app (some text))
  | .clickBrowseDirectory app =>
      if ((renderDirectorySettings p).perApp app).browseDisabled then none
      else some (.onBrowseDirectory app)
  | .clickResetDirectory app =>
      if ((renderDirectorySettings p).perApp app).resetDisabled then none
      else some (.onResetDirectory app)

/-- Modelled from the spec: the `DirectorySettingsState` aggregate of section
3, which in the repository lives in the `useSettings` hook, not in this source
file. Fields per the spec's data model. -/
structure DirectorySettingsState where
  appConfigOverride : Option String
  perAppOverride : AppId → Option String
  overridesEnabled : Bool
  syncToBothConfigDirs : Bool

/-- Modelled from the spec: `setOverridesEnabled(enabled)` of section 4.4
"replaces the gate; no cascading mutation". -/
def setOverridesEnabled (s : DirectorySettingsState) (enabled : Bool) :
    DirectorySettingsState :=
  { s with overridesEnabled := enabled }

/-- Modelled from the spec: `setPerAppOverride(app, value)` of section 4.4
"replaces the entry for `app`; no-op validation". -/
def setPerAppOverride (s : DirectorySettingsState) (app : AppId)
    (value : Option String) : DirectorySettingsState :=
  { s with perAppOverride := fun a => if a = app then value else s.perAppOverride a }

/-- Modelled from the spec: `resetPerAppOverride(app)` of section 4.4,
"equivalent to `setPerAppOverride(app, absent)`". -/
def resetPerAppOverride (s : DirectorySettingsState) (app : AppId) :
    DirectorySettingsState :=
  setPerAppOverride s app none

/-- Modelled from the spec: the `BrowseError` kind of section 7 (native dialog
failed to open). -/
inductive BrowseError
  | dialogFailed
deriving DecidableEq

/-- Modelled from the spec: how the browse dispatcher of section 4.5 folds a
completed `browse(app)` back into the state. The result is `ok none` on the
dialog's cancel path, `ok (some path)` on selection, `error` on a
`BrowseError`. Cancellation and error yield no mutation; a successful browse
feeds its path into `setPerAppOverride`. -/
def applyBrowseResult (s : DirectorySettingsState) (app : AppId)
    (result : Except BrowseError (Option String)) : DirectorySettingsState :=
  match result with
  | .error _ => s
  | .ok none => s
  | .ok (some path) => setPerAppOverride s app (some path)

/-- Modelled from the spec: a `DirectoryTarget` of section 4.3 is either a
managed app's own config directory or an external collaborator's companion
directory, identified by a name (the spec leaves the companion mapping to
external configuration). -/
inductive DirectoryTarget
  | app (a : AppId)
  | external (name : String)
deriving DecidableEq

/-- Modelled from the spec: `targetsFor(syncEnabled, primaryApp)` of section
4.3, parameterised by the externally configured companion mapping. When
`syncEnabled` is false it returns the singleton of the primary app's own
target; when true it also includes the companion target. -/
def targetsFor (companion : AppId → DirectoryTarget) (syncEnabled : Bool)
    (primaryApp : AppId) : Finset DirectoryTarget :=
  if syncEnabled then {DirectoryTarget.app primaryApp, companion primaryApp}
  else {DirectoryTarget.app primaryApp}

/-- Classifier for claim C10: does an emitted callback set an override to the
absent value? -/
def emitsAbsentOverride : Option Callback → Bool
  | some (.onDirectoryChange _ none) => true
  | some (.onAppConfigChange none) => true
  | _ => false

/-- Classifier for claim C9: is an emitted callback one of the three per-app
override mutation entry points (`onDirectoryChange`, `onBrowseDirectory`,
`onResetDirectory`)? -/
def isPerAppMutationCallback : Option Callback → Bool
  | some (.onDirectoryChange _ _) => true
  | some (.onBrowseDirectory _) => true
  | some (.onResetDirectory _) => true
  | _ => false

/-- Concrete props with the override gate off and a stored claude override,
used as the evaluation point for the gate-related results. -/
def gateOffExampleProps : DirectorySettingsProps :=
  { appConfigDir := none
    resolvedDirs :=
      { appConfig := some "/home/u/.cc-switch"
        claude := some "/home/u/.claude"
        codex := some "/home/u/.codex"
        gemini := some "/home/u/.gemini" }
    enableConfigDirOverrides := false
    syncProviderSwitchToBothConfigDirs := false
    claudeDir := some "/custom/claude"
    codexDir := none
    geminiDir := none }

/-- Concrete state with no overrides, used as an evaluation point. -/
def exampleState : DirectorySettingsState :=
  { appConfigOverride := none
    perAppOverride := fun _ => none
    overridesEnabled := true
    syncToBothConfigDirs := false }

/-- C1: for every override value and every resolved default, the effective
path (the component's `displayValue`) equals the override verbatim whenever
the override is present — including the empty string — and equals the
resolved default when the override is absent. -/
theorem effectivePath_override_precedence (override : Option String)
    (resolvedDefault : String) :
    (∀ v : String, override = some v →
        displayValue override (some resolvedDefault) = v) ∧
    (override = none →
        displayValue override (some resolvedDefault) = resolvedDefault) := by
  constructor
  · rintro v rfl; rfl
  · rintro rfl; rfl

/-- Witness for C1 at the empty-string override and at the absent override. -/
theorem effectivePath_override_precedence_witness :
    displayValue (some "") (some "/home/u/.claude") = "" ∧
    displayValue none (some "/home/u/.claude") = "/home/u/.claude" :=
  ⟨(effectivePath_override_precedence (some "") "/home/u/.claude").1 "" rfl,
   (effectivePath_override_precedence none "/home/u/.claude").2 rfl⟩

/-- Counterexample to C2: with the gate off and a stored claude override of
"/custom/claude" against a resolved default of "/home/u/.claude", the
component displays the stored override, not the resolved default. -/
theorem gateOff_display_counterexample :
    ((renderDirectorySettings gateOffExampleProps).perApp AppId.claude).value =
      "/custom/claude" ∧
    ((renderDirectorySettings gateOffExampleProps).perApp AppId.claude).value ≠
      "/home/u/.claude" := by
  constructor
  · rfl
  · decide

/-- C2 (amended): whenever the gate is off, every per-app input is rendered
disabled, but its displayed value is still computed from the stored override
by the usual precedence rule — it equals the stored override when one is
present and the resolved default only when the override is absent. -/
theorem gateOff_display_shows_stored_override (p : DirectorySettingsProps)
    (app : AppId) (h : p.enableConfigDirOverrides = false) :
    ((renderDirectorySettings p).perApp app).inputDisabled = true ∧
    ((renderDirectorySettings p).perApp app).value =
      displayValue (dirFor p app) (resolvedFor p.resolvedDirs app) := by
  refine ⟨?_, rfl⟩
  simp [renderDirectorySettings, renderDirectoryInput, h]

/-- Witness for the amended C2 at the concrete gate-off props. -/
theorem gateOff_display_shows_stored_override_witness :
    ((renderDirectorySettings gateOffExampleProps).perApp AppId.claude).inputDisabled
        = true ∧
    ((renderDirectorySettings gateOffExampleProps).perApp AppId.claude).value =
      displayValue (dirFor gateOffExampleProps AppId.claude)
        (resolvedFor gateOffExampleProps.resolvedDirs AppId.claude) :=
  gateOff_display_shows_stored_override gateOffExampleProps AppId.claude rfl

/-- C3: for every value of the gate and every per-app directory, the override
controls are editable (not disabled) exactly when the gate is on. -/
theorem isOverrideEditable_iff_gate (p : DirectorySettingsProps) (app : AppId) :
    ((!((renderDirectorySettings p).perApp app).inputDisabled) =
        p.enableConfigDirOverrides) ∧
    ((!((renderDirectorySettings p).perApp app).browseDisabled) =
        p.enableConfigDirOverrides) ∧
    ((!((renderDirectorySettings p).perApp app).resetDisabled) =
        p.enableConfigDirOverrides) := by
  simp [renderDirectorySettings, renderDirectoryInput]

/-- C4: setting the gate mutates no other field, and toggling it
false, then true, then false leaves every override entry exactly unchanged. -/
theorem setOverridesEnabled_frame (s : DirectorySettingsState) (e : Bool) :
    ((setOverridesEnabled s e).perAppOverride = s.perAppOverride ∧
     (setOverridesEnabled s e).appConfigOverride = s.appConfigOverride ∧
     (setOverridesEnabled s e).syncToBothConfigDirs = s.syncToBothConfigDirs) ∧
    ((setOverridesEnabled (setOverridesEnabled (setOverridesEnabled s false) true)
        false).perAppOverride = s.perAppOverride ∧
     (setOverridesEnabled (setOverridesEnabled (setOverridesEnabled s false) true)
        false).appConfigOverride = s.appConfigOverride) :=
  ⟨⟨rfl, rfl, rfl⟩, rfl, rfl⟩

/-- C5: with sync off the fan-out is the singleton of the primary app's own
target; with sync on it is the pair of that target and the externally
configured companion target, a two-element set whenever the companion is
distinct from the primary target. -/
theorem targetsFor_fanout (companion : AppId → DirectoryTarget)
    (primaryApp : AppId) :
    targetsFor companion false primaryApp = {DirectoryTarget.app primaryApp} ∧
    targetsFor companion true primaryApp =
      {DirectoryTarget.app primaryApp, companion primaryApp} ∧
    (companion primaryApp ≠ DirectoryTarget.app primaryApp →
      (targetsFor companion true primaryApp).card = 2) := by
  refine ⟨rfl, rfl, fun h => ?_⟩
  rw [targetsFor, if_pos rfl,
    Finset.card_insert_of_not_mem (by simp [Ne.symm h]), Finset.card_singleton]

/-- Witness for C5 at a concrete companion mapping and the codex app. -/
theorem targetsFor_fanout_witness :
    targetsFor (fun _ => DirectoryTarget.external "companion") true AppId.codex =
      {DirectoryTarget.app AppId.codex, DirectoryTarget.external "companion"} ∧
    (targetsFor (fun _ => DirectoryTarget.external "companion") true
        AppId.codex).card = 2 :=
  ⟨(targetsFor_fanout (fun _ => DirectoryTarget.external "companion")
      AppId.codex).2.1,
   (targetsFor_fanout (fun _ => DirectoryTarget.external "companion")
      AppId.codex).2.2 (by decide)⟩

/-- C6: a browse that completes with cancellation or with a browse error
leaves the state exactly equal to its pre-call value. -/
theorem applyBrowseResult_no_mutation (s : DirectorySettingsState) (app : AppId)
    (result : Except BrowseError (Option String))
    (h : result = .ok none ∨ ∃ e, result = .error e) :
    applyBrowseResult s app result = s := by
  rcases h with rfl | ⟨e, rfl⟩ <;> rfl

/-- Witness for C6 at the cancellation outcome for the gemini app. -/
theorem applyBrowseResult_no_mutation_witness :
    applyBrowseResult exampleState AppId.gemini (Except.ok none) = exampleState :=
  applyBrowseResult_no_mutation exampleState AppId.gemini (Except.ok none)
    (Or.inl rfl)

/-- C7: after resetting an app's override, the effective path for that app is
the resolved default, regardless of the prior override value. -/
theorem resetPerAppOverride_effectivePath (s : DirectorySettingsState)
    (app : AppId) (resolvedDefault : String) :
    displayValue ((resetPerAppOverride s app).perAppOverride app)
      (some resolvedDefault) = resolvedDefault := by
  simp [resetPerAppOverride, setPerAppOverride, displayValue]

/-- C8: the host app's own config-directory controls are never gated — input,
browse and reset stay enabled for every value of the gate — while each of the
three per-app rows is disabled exactly when the gate is off. -/
theorem appConfig_not_gated (p : DirectorySettingsProps) :
    ((renderDirectorySettings p).appConfigInput.inputDisabled = false ∧
     (renderDirectorySettings p).appConfigInput.browseDisabled = false ∧
     (renderDirectorySettings p).appConfigInput.resetDisabled = false) ∧
    (∀ app : AppId,
      ((renderDirectorySettings p).perApp app).inputDisabled =
          !p.enableConfigDirOverrides ∧
      ((renderDirectorySettings p).perApp app).browseDisabled =
          !p.enableConfigDirOverrides ∧
      ((renderDirectorySettings p).perApp app).resetDisabled =
          !p.enableConfigDirOverrides) :=
  ⟨⟨rfl, rfl, rfl⟩, fun _ => ⟨rfl, rfl, rfl⟩⟩

/-- C9: while the gate is off, no user event makes the component emit any of
the per-app mutation callbacks — the per-app input, browse and reset controls
are all disabled, so onDirectoryChange, onBrowseDirectory and onResetDirectory
are never invoked. -/
theorem gateOff_no_perApp_mutation (p : DirectorySettingsProps)
    (h : p.enableConfigDirOverrides = false) (ev : UIEvent) :
    isPerAppMutationCallback (dispatch p ev) = false := by
  cases ev <;>
    simp [dispatch, renderDirectorySettings, renderDirectoryInput,
      isPerAppMutationCallback, h]

/-- Witness for C9: with the gate off, typing into the claude row emits no
per-app mutation callback. -/
theorem gateOff_no_perApp_mutation_witness :
    isPerAppMutationCallback
        (dispatch gateOffExampleProps (UIEvent.editDirectory AppId.claude "/x")) =
      false :=
  gateOff_no_perApp_mutation gateOffExampleProps rfl
    (UIEvent.editDirectory AppId.claude "/x")

/-- C10: a text edit, when accepted, always reaches the change callback as a
present string — the edit of a per-app row emits onDirectoryChange with the
typed contents (so clearing the field yields the empty-string override), the
edit of the appConfig row emits onAppConfigChange with the typed contents, and
no event whatsoever emits a change callback carrying the absent value. -/
theorem edit_emits_string_never_absent (p : DirectorySettingsProps) :
    (∀ (app : AppId) (text : String),
        dispatch p (.editDirectory app text) = none ∨
        dispatch p (.editDirectory app text) =
          some (.onDirectoryChange app (some text))) ∧
    (∀ text : String,
        dispatch p (.editAppConfig text) = some (.onAppConfigChange (some text))) ∧
    (∀ ev : UIEvent, emitsAbsentOverride (dispatch p ev) = false) := by
  refine ⟨fun app text => ?_, fun text => rfl, fun ev => ?_⟩
  · rcases Bool.eq_false_or_eq_true
        (((renderDirectorySettings p).perApp app).inputDisabled) with hd | hd
    · left; simp [dispatch, hd]
    · right; simp [dispatch, hd]
  · cases ev
    all_goals first
      | rfl
      | (simp only [dispatch]; split <;> rfl)

end CCSwitch
